import Mathlib

/-!
Verification of the audio-transcriber webhook service (`src/main.py`).

The service receives a webhook payload, filters audio attachments from the
latest message, schedules one background processing unit per audio
attachment, and each unit downloads the file, transcribes it, persists the
transcript and removes the downloaded audio.

The embedding below is a shallow model of `src/main.py`:
  * pydantic models become Lean structures;
  * the filesystem (`data/` directory) is an explicit association list from
    path to file contents, threaded through the functions that touch it;
  * the outcome of the network request made by `download_audio_file` and of
    the opaque transcription capability used by `transcribe_audio` are
    supplied as explicit oracle values (`DlOutcome`, `Except String (List
    String)`), so the functions themselves are deterministic Lean functions;
  * `raise HTTPException(...)` becomes `Except.error` carrying the status
    code and detail string; an unhandled Python error escaping
    `process_audio_attachment` (e.g. `UnboundLocalError`) is modelled by the
    `ProcResult.pyError` constructor.
-/

namespace AudioTranscriber

/-- `class Attachment(BaseModel)` from `src/main.py` (lines 15-22). -/
structure Attachment where
  id : String
  filename : String
  extension : String
  url : String
  media_type : String
  sub_type : String
  size : Int
deriving DecidableEq, Repr

/-- `class LatestMessage(BaseModel)` (lines 25-27). -/
structure LatestMessage where
  type : String
  attachments : List Attachment
deriving DecidableEq, Repr

/-- `class Conversation(BaseModel)` (lines 30-33). -/
structure Conversation where
  id : String
  messages_count : Int
  attachments_count : Int
deriving DecidableEq, Repr

/-- `class MissiveWebhook(BaseModel)` (lines 36-38): a conversation plus an
optional latest message (default `None`). -/
structure MissiveWebhook where
  conversation : Conversation
  latest_message : Option LatestMessage
deriving DecidableEq, Repr

/-- A raised `fastapi.HTTPException`: status code and detail string. -/
structure HTTPException where
  status_code : Nat
  detail : String
deriving DecidableEq, Repr

/-- Starlette's `HTTPException.__str__` is `f"{self.status_code}: {self.detail}"`;
`download_audio_file` applies `str(e)` to the caught exception when re-wrapping. -/
def strHTTPException (e : HTTPException) : String :=
  toString e.status_code ++ ": " ++ e.detail

/-- Contents of one file in the `data/` directory: raw bytes written by the
downloader, or text written with `encoding="utf-8"` by the processor. -/
inductive FileData where
  | bin (bytes : List Nat)
  | utf8Text (s : String)
deriving DecidableEq, Repr

/-- The filesystem visible to the program: an association list from path to
file contents. -/
def FS : Type := List (String × FileData)

instance : DecidableEq FS := by unfold FS; infer_instance

/-- Look a path up in the filesystem. -/
def fsLookup : FS → String → Option FileData
  | [], _ => none
  | (q, d) :: rest, p => if q = p then some d else fsLookup rest p

/-- Remove every entry at a path (`os.remove`, and the overwrite part of
`open(p, "wb")` / `open(p, "w")`). -/
def fsErase : FS → String → FS
  | [], _ => []
  | (q, d) :: rest, p => if q = p then fsErase rest p else (q, d) :: fsErase rest p

/-- Create or overwrite the file at `p` with contents `d`. -/
def fsInsert (fs : FS) (p : String) (d : FileData) : FS :=
  (p, d) :: fsErase fs p

theorem fsLookup_fsErase_self (fs : FS) (p : String) : fsLookup (fsErase fs p) p = none := by
  induction fs with
  | nil => rfl
  | cons hd tl ih =>
    obtain ⟨q, d⟩ := hd
    by_cases h : q = p
    · simp [fsErase, h, ih]
    · simp [fsErase, fsLookup, h, ih]

theorem fsLookup_fsErase_ne (fs : FS) (p q : String) (h : p ≠ q) :
    fsLookup (fsErase fs p) q = fsLookup fs q := by
  induction fs with
  | nil => rfl
  | cons hd tl ih =>
    obtain ⟨r, d⟩ := hd
    by_cases hr : r = p
    · subst hr
      simp [fsErase, fsLookup, h, ih]
    · simp [fsErase, fsLookup, hr, ih]

theorem fsLookup_fsInsert_self (fs : FS) (p : String) (d : FileData) :
    fsLookup (fsInsert fs p d) p = some d := by
  simp [fsInsert, fsLookup]

theorem fsLookup_fsInsert_ne (fs : FS) (p q : String) (d : FileData) (h : p ≠ q) :
    fsLookup (fsInsert fs p d) q = fsLookup fs q := by
  simp only [fsInsert, fsLookup]
  rw [if_neg h]
  exact fsLookup_fsErase_ne fs p q h

/-- The oracle describing what the network and local I/O do during one call
of `download_audio_file`:

  * `exn msg`: an exception (connection error, `aiohttp` timeout of the
    30-second `ClientTimeout`, DNS failure, ...) raised before the response
    status is inspected; `msg` is `str(e)` of the raised exception.
  * `resp status chunks writeFail`: the GET returned a response with the
    given HTTP status whose body streams as the given 8 KiB chunks
    (`response.content.read(8192)`); `writeFail = some (k, msg)` means an
    I/O exception with text `msg` is raised after the first `k` chunks have
    been written to the local file, `none` means reading and writing
    complete normally. -/
inductive DlOutcome where
  | exn (msg : String)
  | resp (status : Nat) (chunks : List (List Nat)) (writeFail : Option (Nat × String))
deriving DecidableEq, Repr

/-- `local_filename = os.path.join("data", f"{attachment.id}_{attachment.filename}")`
(line 58); on POSIX, joining the relative component concatenates with `/`. -/
def audioLocalPath (a : Attachment) : String :=
  "data/" ++ a.id ++ "_" ++ a.filename

/-- The `except Exception` handler at lines 80-85: every failure inside
`download_audio_file` is re-raised as
`HTTPException(500, f"Failed to download audio file: {str(e)}")`. -/
def wrapDownloadFailure (cause : String) : HTTPException :=
  { status_code := 500, detail := "Failed to download audio file: " ++ cause }

/-- `download_audio_file` (lines 44-85). Mirrors the source control flow:

  * any exception before the status check is caught by the outer
    `except Exception` and wrapped — the filesystem is untouched;
  * `if response.status != 200:` raises
    `HTTPException(500, f"Failed to download audio file: HTTP {response.status}")`
    (lines 63-67) *before* `open(local_filename, "wb")`, so no file is
    created; `fastapi.HTTPException` is an `Exception`, so the outer handler
    catches it and wraps it again, with `str(e)` = `"500: <inner detail>"`;
  * on status 200 the file is opened for writing (creating/truncating it)
    and the chunks are streamed into it; a write/read failure after `k`
    chunks leaves the partial file and is wrapped by the outer handler;
  * on full success the local path is returned. -/
def downloadAudioFile (a : Attachment) (dl : DlOutcome) (fs : FS) :
    Except HTTPException String × FS :=
  match dl with
  | .exn msg => (.error (wrapDownloadFailure msg), fs)
  | .resp status chunks writeFail =>
    if status ≠ 200 then
      (.error (wrapDownloadFailure (strHTTPException
        { status_code := 500,
          detail := "Failed to download audio file: HTTP " ++ toString status })), fs)
    else
      match writeFail with
      | some (k, msg) =>
        (.error (wrapDownloadFailure msg),
          fsInsert fs (audioLocalPath a) (.bin (chunks.take k).flatten))
      | none =>
        (.ok (audioLocalPath a), fsInsert fs (audioLocalPath a) (.bin chunks.flatten))

/-- The download succeeds exactly when the GET returns status 200 and the
body streams to disk without an I/O error. -/
def dlSucceeds : DlOutcome → Prop
  | .exn _ => False
  | .resp status _ writeFail => status = 200 ∧ writeFail = none

instance (dl : DlOutcome) : Decidable (dlSucceeds dl) := by
  cases dl <;> simp [dlSucceeds] <;> infer_instance

/-- Characters removed by Python's `str.strip()` (the ASCII whitespace
characters; the additional Unicode space code points are not used by any
value in this development). -/
def isPyStripSpace (c : Char) : Bool :=
  c = ' ' || c = '\t' || c = '\n' || c = '\r' || c = '\x0b' || c = '\x0c'

/-- Python `s.strip()`: drop leading and trailing whitespace. -/
def pyStrip (s : String) : String :=
  String.mk (((s.data.dropWhile isPyStripSpace).reverse.dropWhile isPyStripSpace).reverse)

/-- Python `" ".join(l)`. -/
def pySpaceJoin (l : List String) : String :=
  String.intercalate " " l

/-- The transcription value built by `transcribe_audio` (lines 114-118): the
materialized segment list and the derived `full_text`.  The `info` summary
metadata returned by the capability is opaque and never read by the rest of
the program, so it is not modelled. -/
structure Transcription where
  segments : List String
  full_text : String
deriving DecidableEq, Repr

/-- `transcribe_audio` (lines 88-128).  The opaque capability
(`WhisperModel(...).transcribe`, including forcing the lazy segment
generator with `list(segments)`) is supplied as an oracle: `.ok texts` is
the fully materialized list of segment texts, `.error msg` is `str(e)` of
any exception raised inside the `try` (model load error, corrupt audio,
...).  On success `full_text = " ".join([segment.text ...]).strip()`
(line 117); on failure the `except Exception` handler raises
`HTTPException(500, f"Transcription failed: {str(e)}")` (lines 123-128). -/
def transcribeAudio (audio_path : String) (tr : Except String (List String)) :
    Except HTTPException Transcription :=
  match audio_path, tr with
  | _, .error msg => .error { status_code := 500, detail := "Transcription failed: " ++ msg }
  | _, .ok texts => .ok { segments := texts, full_text := pyStrip (pySpaceJoin texts) }

/-- Index of the last occurrence of `c` in `l` (Python `str.rfind`, as an
`Option`). -/
def lastIndexOf (c : Char) : List Char → Option Nat
  | [] => none
  | a :: rest =>
    match lastIndexOf c rest with
    | some i => some (i + 1)
    | none => if a = c then some 0 else none

/-- Index of the first character of the basename: one past the last `/`
(CPython's `filenameIndex` start, `sepIndex + 1`), or `0` when there is no
separator. -/
def pySplitextStart (l : List Char) : Nat :=
  match lastIndexOf '/' l with
  | none => 0
  | some sepIndex => sepIndex + 1

/-- `os.path.splitext(p)[0]` on the character list of `p`, following
CPython's `genericpath._splitext` for POSIX: find the last `.`; it starts
the extension only if it lies after the last `/` and at least one character
strictly between the last `/` and that dot is not a dot (so dotfiles such
as `".bashrc"` keep their name). -/
def pySplitextRootL (l : List Char) : List Char :=
  match lastIndexOf '.' l with
  | none => l
  | some dotIndex =>
    if pySplitextStart l ≤ dotIndex &&
        ((l.drop (pySplitextStart l)).take (dotIndex - pySplitextStart l)).any
          (fun c => c != '.') then
      l.take dotIndex
    else l

/-- `os.path.splitext(p)[0]`: the filename stem. -/
def pySplitextRoot (p : String) : String :=
  String.mk (pySplitextRootL p.data)

/-- `transcription_filename` (lines 146-149):
`os.path.join("data", f"{attachment.id}_{os.path.splitext(attachment.filename)[0]}_transcription.txt")`. -/
def transcriptPath (a : Attachment) : String :=
  "data/" ++ a.id ++ "_" ++ pySplitextRoot a.filename ++ "_transcription.txt"

/-- Outcome of one run of the background task `process_audio_attachment`:
either the returned `transcription["full_text"]`, or the name of an
unhandled Python exception escaping the task (these are not
`HTTPException`s, so the `except HTTPException` clause does not catch
them). -/
inductive ProcResult where
  | ok (full_text : String)
  | pyError (errName : String)
deriving DecidableEq, Repr

/-- The oracle for one processing unit: what the network does for this
attachment's download, and what the transcription capability yields. -/
structure ProcEnv where
  dl : DlOutcome
  tr : Except String (List String)

/-- `process_audio_attachment` (lines 131-163), faithfully including the two
statements placed *after* the `try`/`except HTTPException` block:

  `os.remove(audio_path)`                 (line 161)
  `return transcription["full_text"]`     (line 163)

Control flow by case:
  * download raises `HTTPException` → caught and logged (line 157); after
    the handler, evaluating `audio_path` in `os.remove(audio_path)` raises
    `UnboundLocalError` (the variable was never assigned), which no handler
    catches, so it escapes the task;
  * download succeeds, transcription raises `HTTPException` → caught and
    logged; `os.remove(audio_path)` then deletes the downloaded file, and
    `transcription["full_text"]` raises `NameError` (`transcription` was
    never assigned), which escapes the task;
  * both succeed → the transcript is written UTF-8 encoded to
    `transcriptPath`, the audio file is removed, and the full text is
    returned.

The third component of the result collects the messages this function
itself logs, in order. -/
def processAudioAttachment (att : Attachment) (env : ProcEnv) (fs : FS) :
    ProcResult × FS × List String :=
  match downloadAudioFile att env.dl fs with
  | (.error e, fs1) =>
    (.pyError "UnboundLocalError", fs1,
      ["Processing audio attachment: " ++ att.filename,
       "Error processing audio attachment: " ++ e.detail,
       "Finished processing audio attachment: " ++ att.filename])
  | (.ok audio_path, fs1) =>
    match transcribeAudio audio_path env.tr with
    | .error e =>
      (.pyError "NameError", fsErase fs1 audio_path,
        ["Processing audio attachment: " ++ att.filename,
         "Audio file saved to: " ++ audio_path,
         "Error processing audio attachment: " ++ e.detail,
         "Finished processing audio attachment: " ++ att.filename])
    | .ok transcription =>
      let tname := transcriptPath att
      let fs2 := fsInsert fs1 tname (.utf8Text transcription.full_text)
      (.ok transcription.full_text, fsErase fs2 audio_path,
        ["Processing audio attachment: " ++ att.filename,
         "Audio file saved to: " ++ audio_path,
         "Transcription saved to: " ++ tname,
         "Finished processing audio attachment: " ++ att.filename])

/-- `audio_attachments = [a for a in attachments if a.media_type == "audio"]`
(line 202). -/
def audioFilter (atts : List Attachment) : List Attachment :=
  atts.filter (fun a => a.media_type == "audio")

/-- Body of the `202 Accepted` response returned at lines 218-221. -/
structure SuccessBody where
  status : String
  message : String
deriving DecidableEq, Repr

/-- Result of one call of the webhook endpoint: the background tasks that
were scheduled with `background_tasks.add_task(process_audio_attachment, a)`
(in order, one per attachment; they run only after the response is sent),
the HTTP status of the response, and the response itself — either the
success body or a raised `HTTPException`. -/
structure EndpointResult where
  scheduled : List Attachment
  http_status : Nat
  response : Except HTTPException SuccessBody
deriving Repr

/-- `receive_webhook` (lines 166-221).  The payload has already passed
pydantic validation.  Python truthiness: `not payload.latest_message` is
true exactly when the optional field is `None`, and `not l` on a list is
emptiness. -/
def receiveWebhook (payload : MissiveWebhook) : EndpointResult :=
  match payload.latest_message with
  | none =>
    { scheduled := [], http_status := 204,
      response := .error
        { status_code := 204,
          detail := "No message found. Nothing to process." } }
  | some latest =>
    if latest.attachments.isEmpty then
      { scheduled := [], http_status := 204,
        response := .error
          { status_code := 204,
            detail := "No attachments found on latest message. Nothing to process." } }
    else
      let audio_attachments := audioFilter latest.attachments
      if audio_attachments.isEmpty then
        { scheduled := [], http_status := 204,
          response := .error
            { status_code := 204,
              detail := "No audio attachments found. Nothing to transcribe." } }
      else
        { scheduled := audio_attachments, http_status := 202,
          response := .ok
            { status := "success",
              message := "Found " ++ toString audio_attachments.length ++
                " audio attachments. Sent for transcription." } }

/-! ### Helper lemmas -/

theorem lastIndexOf_getElem? (c : Char) (l : List Char) (i : Nat)
    (h : lastIndexOf c l = some i) : l[i]? = some c := by
  induction l generalizing i with
  | nil => simp [lastIndexOf] at h
  | cons a rest ih =>
    rw [lastIndexOf] at h
    cases hr : lastIndexOf c rest with
    | some j =>
      rw [hr] at h
      injection h with h
      subst h
      simpa using ih j hr
    | none =>
      rw [hr] at h
      by_cases hac : a = c
      · rw [if_pos hac] at h
        injection h with h
        subst h
        simp [hac]
      · rw [if_neg hac] at h
        cases h

/-- The stem returned by `splitext` is either the whole name, or the whole
name is the stem followed by a dot and a remainder. -/
theorem pySplitextRootL_cases (l : List Char) :
    pySplitextRootL l = l ∨ ∃ rest, l = pySplitextRootL l ++ '.' :: rest := by
  unfold pySplitextRootL
  split
  · exact Or.inl rfl
  · next dotIndex hd =>
    have hget := lastIndexOf_getElem? '.' l dotIndex hd
    obtain ⟨hlt, hc⟩ := List.getElem?_eq_some_iff.mp hget
    by_cases hcond : (pySplitextStart l ≤ dotIndex &&
        ((l.drop (pySplitextStart l)).take (dotIndex - pySplitextStart l)).any
          (fun c => c != '.')) = true
    · rw [if_pos hcond]
      right
      refine ⟨l.drop (dotIndex + 1), ?_⟩
      conv_lhs => rw [← List.take_append_drop dotIndex l]
      rw [List.drop_eq_getElem_cons hlt, hc]
    · rw [if_neg hcond]
      exact Or.inl rfl

/-- A filename never equals its own `splitext` stem followed by
`'_' :: suffix`: the part of a name after its stem is either empty or
starts with a dot. -/
theorem ne_pySplitextRootL_append_underscore (l s : List Char) :
    l ≠ pySplitextRootL l ++ '_' :: s := by
  rcases pySplitextRootL_cases l with h | ⟨rest, h⟩
  · rw [h]
    intro he
    have hlen := congrArg List.length he
    simp at hlen
  · intro he
    have h2 : pySplitextRootL l ++ '.' :: rest = pySplitextRootL l ++ '_' :: s :=
      h.symm.trans he
    have h3 := List.append_cancel_left h2
    simp at h3

/-- The transcript artifact never collides with the downloaded audio file:
both live under `data/` with the same `{id}_` part, and a filename never
equals its own stem followed by `"_transcription.txt"`. -/
theorem transcriptPath_ne_audioLocalPath (a : Attachment) :
    transcriptPath a ≠ audioLocalPath a := by
  intro he
  have hdata := congrArg String.data he
  unfold transcriptPath audioLocalPath at hdata
  simp only [String.data_append, List.append_assoc] at hdata
  have h2 := List.append_cancel_left hdata
  have h3 := List.append_cancel_left h2
  have h4 := List.append_cancel_left h3
  have h5 : a.filename.data =
      pySplitextRootL a.filename.data ++ '_' :: "transcription.txt".data := by
    conv_lhs => rw [← h4]
    rfl
  exact ne_pySplitextRootL_append_underscore a.filename.data _ h5

example : pySplitextRoot "voice.mp3" = "voice" := by decide
example : pySplitextRoot ".bashrc" = ".bashrc" := by decide
example : pySplitextRoot "a.b.c" = "a.b" := by decide
example : pySplitextRoot "archive" = "archive" := by decide
example : pySplitextRoot "dir/x.y/name" = "dir/x.y/name" := by decide

deriving instance DecidableEq for Except

deriving instance DecidableEq for EndpointResult

/-! ### Concrete fixtures -/

/-- A concrete audio attachment. -/
def attVoice : Attachment :=
  { id := "att1", filename := "voice.mp3", extension := "mp3",
    url := "https://example.com/voice.mp3", media_type := "audio",
    sub_type := "mpeg", size := 2048 }

/-- A concrete non-audio attachment. -/
def attImage : Attachment :=
  { id := "att2", filename := "pic.png", extension := "png",
    url := "https://example.com/pic.png", media_type := "image",
    sub_type := "png", size := 100 }

def convo : Conversation :=
  { id := "c1", messages_count := 3, attachments_count := 2 }

def payloadNoMessage : MissiveWebhook :=
  { conversation := convo, latest_message := none }

def msgNoAttachments : LatestMessage :=
  { type := "email", attachments := [] }

def payloadNoAttachments : MissiveWebhook :=
  { conversation := convo, latest_message := some msgNoAttachments }

def msgNoAudio : LatestMessage :=
  { type := "email", attachments := [attImage] }

def payloadNoAudio : MissiveWebhook :=
  { conversation := convo, latest_message := some msgNoAudio }

/-- One audio attachment mixed with one non-audio attachment. -/
def msgOneAudio : LatestMessage :=
  { type := "email", attachments := [attVoice, attImage] }

def payloadOneAudio : MissiveWebhook :=
  { conversation := convo, latest_message := some msgOneAudio }

/-! ### Claims -/

/-- **C7**: for every attachment sequence, the audio filter returns the
subsequence (preserving relative order) of attachments whose media type
equals `"audio"` under exact case-sensitive string equality; the selected
elements are exactly the members of the input with that media type (no
attachment is mutated), and the empty sequence maps to the empty
sequence. -/
theorem c7_audio_filter_subsequence (atts : List Attachment) :
    List.Sublist (audioFilter atts) atts ∧
    (∀ a, a ∈ audioFilter atts ↔ (a ∈ atts ∧ a.media_type = "audio")) ∧
    audioFilter ([] : List Attachment) = [] := by
  refine ⟨List.filter_sublist atts, ?_, rfl⟩
  intro a
  simp [audioFilter]

/-- **C8**: the audio filter is idempotent: a sequence whose elements all
have media type `"audio"` is returned unchanged, and filtering twice equals
filtering once. -/
theorem c8_audio_filter_idempotent (l : List Attachment)
    (h : ∀ a ∈ l, a.media_type = "audio") :
    audioFilter l = l ∧ audioFilter (audioFilter l) = audioFilter l := by
  have h1 : audioFilter l = l := by
    refine List.filter_eq_self.mpr ?_
    intro a ha
    simp [h a ha]
  exact ⟨h1, by rw [h1, h1]⟩

/-- Witness for **C8** at a concrete all-audio sequence. -/
theorem c8_witness :
    audioFilter [attVoice] = [attVoice] ∧
    audioFilter (audioFilter [attVoice]) = audioFilter [attVoice] :=
  c8_audio_filter_idempotent [attVoice] (by decide)

/-- **C5**: a payload with no latest message, with an empty attachment
list, or whose attachments are all non-audio, gets the no-content (204)
status, each of the three cases with its own distinct descriptive detail,
and zero units of work are scheduled. -/
theorem c5_no_work_responses (payload : MissiveWebhook) :
    (payload.latest_message = none →
      receiveWebhook payload =
        ⟨[], 204, .error ⟨204, "No message found. Nothing to process."⟩⟩) ∧
    (∀ lm, payload.latest_message = some lm → lm.attachments = [] →
      receiveWebhook payload =
        ⟨[], 204, .error
          ⟨204, "No attachments found on latest message. Nothing to process."⟩⟩) ∧
    (∀ lm, payload.latest_message = some lm → lm.attachments ≠ [] →
      (∀ a ∈ lm.attachments, a.media_type ≠ "audio") →
      receiveWebhook payload =
        ⟨[], 204, .error ⟨204, "No audio attachments found. Nothing to transcribe."⟩⟩) ∧
    (("No message found. Nothing to process." : String) ≠
        "No attachments found on latest message. Nothing to process." ∧
      ("No message found. Nothing to process." : String) ≠
        "No audio attachments found. Nothing to transcribe." ∧
      ("No attachments found on latest message. Nothing to process." : String) ≠
        "No audio attachments found. Nothing to transcribe.") := by
  refine ⟨?_, ?_, ?_, by decide, by decide, by decide⟩
  · intro h
    unfold receiveWebhook
    rw [h]
  · intro lm hlm hemp
    unfold receiveWebhook
    rw [hlm]
    simp [hemp]
  · intro lm hlm hne hall
    have hfil : audioFilter lm.attachments = [] := by
      unfold audioFilter
      refine List.filter_eq_nil_iff.mpr ?_
      intro a ha
      simp [hall a ha]
    have h1 : lm.attachments.isEmpty = false := by
      simp [hne]
    unfold receiveWebhook
    rw [hlm]
    simp [h1, hfil]

/-- Witness for **C5**: the three no-work payload shapes, evaluated. -/
theorem c5_witness :
    receiveWebhook payloadNoMessage =
      ⟨[], 204, .error ⟨204, "No message found. Nothing to process."⟩⟩ ∧
    receiveWebhook payloadNoAttachments =
      ⟨[], 204, .error
        ⟨204, "No attachments found on latest message. Nothing to process."⟩⟩ ∧
    receiveWebhook payloadNoAudio =
      ⟨[], 204, .error ⟨204, "No audio attachments found. Nothing to transcribe."⟩⟩ :=
  ⟨(c5_no_work_responses payloadNoMessage).1 rfl,
   (c5_no_work_responses payloadNoAttachments).2.1 msgNoAttachments rfl rfl,
   (c5_no_work_responses payloadNoAudio).2.2.1 msgNoAudio rfl (by decide) (by decide)⟩

/-- **C10** (implicit): when the HTTP response status is not 200,
`download_audio_file` leaves the filesystem unchanged — the destination
file is opened for writing only after the status check passes. -/
theorem c10_bad_status_leaves_fs_unchanged (att : Attachment) (status : Nat)
    (chunks : List (List Nat)) (writeFail : Option (Nat × String)) (fs : FS)
    (h : status ≠ 200) :
    (downloadAudioFile att (.resp status chunks writeFail) fs).2 = fs := by
  simp [downloadAudioFile, h]

/-- Witness for **C10** at HTTP 403 with a nonempty body and a nonempty
starting filesystem. -/
theorem c10_witness :
    (403 : Nat) ≠ 200 ∧
    (downloadAudioFile attVoice (.resp 403 [[7, 8]] none)
      [("data/other", .bin [1])]).2 = [("data/other", .bin [1])] :=
  ⟨by decide,
   c10_bad_status_leaves_fs_unchanged attVoice 403 [[7, 8]] none
     [("data/other", .bin [1])] (by decide)⟩

/-- **C4 counterexample**: for a payload with exactly one audio attachment
the endpoint's response body message is
`"Found 1 audio attachments. Sent for transcription."`, not the
`"1 audio attachments. Sent for transcription."` stated by the claim. -/
theorem c4_counterexample :
    (receiveWebhook payloadOneAudio).response =
      .ok ⟨"success", "Found 1 audio attachments. Sent for transcription."⟩ ∧
    ("Found 1 audio attachments. Sent for transcription." : String) ≠
      "1 audio attachments. Sent for transcription." := by
  exact ⟨by decide, by decide⟩

/-- **C4 (amended)**: for every valid payload containing at least one audio
attachment (possibly mixed with non-audio ones), `receive_webhook`
schedules exactly one background processing unit per filtered attachment —
in order, N in total — and returns a `202 Accepted` response with body
`{"status": "success", "message": "Found <count> audio attachments. Sent
for transcription."}` reporting count N.  Scheduling is fire-and-forget:
`background_tasks.add_task` only records the units, which run after the
response is returned, so the response does not wait for any unit. -/
theorem c4_schedules_and_reports (payload : MissiveWebhook) (lm : LatestMessage)
    (hlm : payload.latest_message = some lm)
    (hne : audioFilter lm.attachments ≠ []) :
    (receiveWebhook payload).scheduled = audioFilter lm.attachments ∧
    (receiveWebhook payload).scheduled.length = (audioFilter lm.attachments).length ∧
    (receiveWebhook payload).http_status = 202 ∧
    (receiveWebhook payload).response = .ok
      ⟨"success", "Found " ++ toString (audioFilter lm.attachments).length ++
        " audio attachments. Sent for transcription."⟩ := by
  have hA : lm.attachments ≠ [] := by
    intro h
    exact hne (by rw [h]; rfl)
  have h1 : lm.attachments.isEmpty = false := by
    simp [hA]
  have h2 : (audioFilter lm.attachments).isEmpty = false := by
    simp [hne]
  unfold receiveWebhook
  rw [hlm]
  simp [h1, h2]

/-- Witness for **C4 (amended)** at a payload with one audio and one
non-audio attachment. -/
theorem c4_witness :
    (receiveWebhook payloadOneAudio).scheduled = audioFilter msgOneAudio.attachments ∧
    (receiveWebhook payloadOneAudio).scheduled.length =
      (audioFilter msgOneAudio.attachments).length ∧
    (receiveWebhook payloadOneAudio).http_status = 202 ∧
    (receiveWebhook payloadOneAudio).response = .ok
      ⟨"success", "Found " ++ toString (audioFilter msgOneAudio.attachments).length ++
        " audio attachments. Sent for transcription."⟩ :=
  c4_schedules_and_reports payloadOneAudio msgOneAudio rfl (by decide)

/-- **C6**: `transcribe_audio` assembles `full_text` by joining the
materialized segment texts with single spaces and trimming surrounding
whitespace; for the segment texts `["Hello", "world"]` the assembled text
is exactly `"Hello world"`, and on the success path the processor persists
exactly that text. -/
theorem c6_full_text_assembly (path : String) (texts : List String) :
    transcribeAudio path (.ok texts) = .ok ⟨texts, pyStrip (pySpaceJoin texts)⟩ ∧
    transcribeAudio path (.ok ["Hello", "world"]) =
      .ok ⟨["Hello", "world"], "Hello world"⟩ ∧
    fsLookup
      (processAudioAttachment attVoice
        ⟨.resp 200 [[1, 2]] none, .ok ["Hello", "world"]⟩ []).2.1
      (transcriptPath attVoice) = some (.utf8Text "Hello world") :=
  ⟨rfl, rfl, by decide⟩

/-- **C9**: a download attempt fails exactly when a network/timeout/I/O
exception or a non-200 HTTP status occurs; every failure is the single kind
`HTTPException(500, "Failed to download audio file: <cause>")` whose detail
carries the underlying cause, and for a non-success response the surfaced
cause contains the HTTP status code (via the stringified inner
`HTTPException`); on success the returned path is
`data/{attachment.id}_{attachment.filename}`. -/
theorem c9_download_error_reporting (att : Attachment) (dl : DlOutcome) (fs : FS) :
    ((downloadAudioFile att dl fs).1 = .ok (audioLocalPath att) ↔ dlSucceeds dl) ∧
    ((∃ e, (downloadAudioFile att dl fs).1 = .error e) ↔ ¬dlSucceeds dl) ∧
    (∀ e, (downloadAudioFile att dl fs).1 = .error e →
      e.status_code = 500 ∧
      ∃ cause, e.detail = "Failed to download audio file: " ++ cause) ∧
    (∀ status chunks writeFail, dl = .resp status chunks writeFail → status ≠ 200 →
      (downloadAudioFile att dl fs).1 = .error
        ⟨500, "Failed to download audio file: 500: Failed to download audio file: HTTP "
          ++ toString status⟩) := by
  cases dl with
  | exn msg =>
    refine ⟨?_, ?_, ?_, ?_⟩
    · simp [downloadAudioFile, dlSucceeds, wrapDownloadFailure]
    · simp [downloadAudioFile, dlSucceeds]
    · intro e he
      simp only [downloadAudioFile] at he
      injection he with he
      subst he
      exact ⟨rfl, msg, rfl⟩
    · intro status chunks writeFail h
      cases h
  | resp status chunks writeFail =>
    by_cases hs : status = 200
    · subst hs
      cases writeFail with
      | none =>
        refine ⟨?_, ?_, ?_, ?_⟩
        · simp [downloadAudioFile, dlSucceeds]
        · simp [downloadAudioFile, dlSucceeds]
        · intro e he
          simp [downloadAudioFile] at he
        · intro status' chunks' writeFail' h h200
          injection h with h1 h2 h3
          exact absurd h1.symm h200
      | some kmsg =>
        refine ⟨?_, ?_, ?_, ?_⟩
        · simp [downloadAudioFile, dlSucceeds]
        · simp [downloadAudioFile, dlSucceeds]
        · intro e he
          simp only [downloadAudioFile] at he
          obtain ⟨k, msg⟩ := kmsg
          simp only [ne_eq, not_true_eq_false, if_false, reduceIte] at he
          injection he with he
          subst he
          exact ⟨rfl, msg, rfl⟩
        · intro status' chunks' writeFail' h h200
          injection h with h1 h2 h3
          exact absurd h1.symm h200
    · refine ⟨?_, ?_, ?_, ?_⟩
      · simp [downloadAudioFile, dlSucceeds, hs]
      · simp [downloadAudioFile, dlSucceeds, hs]
      · intro e he
        simp only [downloadAudioFile, if_pos hs] at he
        injection he with he
        subst he
        exact ⟨rfl, _, rfl⟩
      · intro status' chunks' writeFail' h h200
        injection h with h1 h2 h3
        subst h1
        subst h2
        subst h3
        simp only [downloadAudioFile, if_pos hs, wrapDownloadFailure, strHTTPException]
        refine congrArg Except.error (congrArg (HTTPException.mk 500) ?_)
        apply String.ext
        simp only [String.data_append]
        rfl

/-- Witness for **C9**: one failing (HTTP 403) and one succeeding download,
with the inner-exception stringification visible in the surfaced detail. -/
theorem c9_witness :
    ((downloadAudioFile attVoice (.resp 403 [] none) []).1 =
      .ok (audioLocalPath attVoice) ↔ dlSucceeds (.resp 403 [] none)) ∧
    (downloadAudioFile attVoice (.resp 403 [] none) []).1 = .error
      ⟨500, "Failed to download audio file: 500: Failed to download audio file: HTTP 403"⟩ ∧
    ((downloadAudioFile attVoice (.resp 200 [[1]] none) []).1 =
      .ok (audioLocalPath attVoice) ↔ dlSucceeds (.resp 200 [[1]] none)) := by
  refine ⟨(c9_download_error_reporting attVoice (.resp 403 [] none) []).1, ?_, ?_⟩
  · have h := (c9_download_error_reporting attVoice (.resp 403 [] none) []).2.2.2
      403 [] none rfl (by decide)
    simpa using h
  · exact (c9_download_error_reporting attVoice (.resp 200 [[1]] none) []).1

/-- **C1 (code bug evidence)**: on a failed download (here HTTP 403) the
processing unit logs the failure and never reaches the transcriber, but it
does *not* halt cleanly: after the `except HTTPException` handler, line 161
evaluates `os.remove(audio_path)` with `audio_path` never assigned, so an
unhandled `UnboundLocalError` escapes the unit (the filesystem is left
unchanged; the log shows no transcription activity). -/
theorem c1_download_failure_escapes :
    processAudioAttachment attVoice ⟨.resp 403 [] none, .ok ["Hello"]⟩ [] =
      (.pyError "UnboundLocalError", [],
        ["Processing audio attachment: voice.mp3",
         "Error processing audio attachment: Failed to download audio file: 500: Failed to download audio file: HTTP 403",
         "Finished processing audio attachment: voice.mp3"]) := by
  decide

/-- **C2 counterexample**: download succeeds (the audio file exists on disk
afterwards), transcription fails, and yet after the unit finishes the
downloaded audio file is *gone* — `os.remove(audio_path)` at line 161 runs
unconditionally — refuting "leaves the downloaded audio file undeleted";
in addition the unit ends in an unhandled `NameError` from
`return transcription["full_text"]`. -/
theorem c2_counterexample :
    (downloadAudioFile attVoice (.resp 200 [[1, 2]] none) []).1 =
      .ok (audioLocalPath attVoice) ∧
    fsLookup (downloadAudioFile attVoice (.resp 200 [[1, 2]] none) []).2
      (audioLocalPath attVoice) = some (.bin [1, 2]) ∧
    (processAudioAttachment attVoice
      ⟨.resp 200 [[1, 2]] none, .error "corrupt audio"⟩ []).1 = .pyError "NameError" ∧
    fsLookup (processAudioAttachment attVoice
      ⟨.resp 200 [[1, 2]] none, .error "corrupt audio"⟩ []).2.1
      (audioLocalPath attVoice) = none := by
  decide

/-- **C2 (amended)**: for every attachment whose download succeeds but whose
transcription fails, `process_audio_attachment` *deletes* the downloaded
audio file (the cleanup statement sits after the `try`/`except` block and
runs unconditionally) and then an unhandled `NameError` escapes the unit
when the `return` statement evaluates the never-assigned `transcription`. -/
theorem c2_transcription_failure_deletes_audio (att : Attachment) (env : ProcEnv)
    (fs fs1 : FS) (p : String) (msg : String)
    (hdl : downloadAudioFile att env.dl fs = (.ok p, fs1))
    (htr : env.tr = .error msg) :
    (processAudioAttachment att env fs).1 = .pyError "NameError" ∧
    fsLookup (processAudioAttachment att env fs).2.1 p = none := by
  unfold processAudioAttachment
  rw [hdl, htr]
  simp [transcribeAudio, fsLookup_fsErase_self]

/-- Witness for **C2 (amended)** at a concrete succeeding download and
failing transcription. -/
theorem c2_witness :
    (processAudioAttachment attVoice
      ⟨.resp 200 [[1, 2]] none, .error "corrupt audio"⟩ []).1 = .pyError "NameError" ∧
    fsLookup (processAudioAttachment attVoice
      ⟨.resp 200 [[1, 2]] none, .error "corrupt audio"⟩ []).2.1
      "data/att1_voice.mp3" = none :=
  c2_transcription_failure_deletes_audio attVoice
    ⟨.resp 200 [[1, 2]] none, .error "corrupt audio"⟩ []
    [("data/att1_voice.mp3", .bin [1, 2])] "data/att1_voice.mp3" "corrupt audio"
    (by decide) rfl

/-- **C3**: when download and transcription both succeed,
`process_audio_attachment` writes exactly the assembled full text, UTF-8
encoded, to `data/{attachment.id}_{filename-stem}_transcription.txt`, and
afterwards deletes the downloaded audio file. -/
theorem c3_success_persists_and_cleans (att : Attachment) (fs : FS)
    (chunks : List (List Nat)) (texts : List String) :
    (processAudioAttachment att ⟨.resp 200 chunks none, .ok texts⟩ fs).1 =
      .ok (pyStrip (pySpaceJoin texts)) ∧
    fsLookup (processAudioAttachment att ⟨.resp 200 chunks none, .ok texts⟩ fs).2.1
      (transcriptPath att) = some (.utf8Text (pyStrip (pySpaceJoin texts))) ∧
    fsLookup (processAudioAttachment att ⟨.resp 200 chunks none, .ok texts⟩ fs).2.1
      (audioLocalPath att) = none := by
  have hdl : downloadAudioFile att (.resp 200 chunks none) fs =
      (.ok (audioLocalPath att),
        fsInsert fs (audioLocalPath att) (.bin chunks.flatten)) := by
    simp [downloadAudioFile]
  unfold processAudioAttachment
  rw [hdl]
  simp only [transcribeAudio]
  refine ⟨trivial, ?_, ?_⟩
  · rw [fsLookup_fsErase_ne _ _ _
      (fun h => transcriptPath_ne_audioLocalPath att h.symm)]
    exact fsLookup_fsInsert_self _ _ _
  · exact fsLookup_fsErase_self _ _

end AudioTranscriber
